import Mathlib

/-!
# GIS-OSS request pipeline: a shallow embedding in Lean 4

This file embeds the validation, authorization, rate-limiting, grounding and
dispatch logic of the GIS-OSS geospatial query gateway and proves the spec's
testable properties about it.

Embedded modules (Python source file → Lean namespace/section):
* `src/security/authorization.py` → roles, permission matrix, role resolution
* `src/security/rate_limit.py`    → token-bucket rate limiter
* `src/nl/strict_parser.py`       → strict structured-operation validator and
                                    natural-language JSON extraction
* `src/api/main.py`               → request model, dispatcher, table allow-list
* `src/llm/ollama_client.py`      → provider retry loop with backoff

Machine floats are modelled as rationals (the arithmetic the code performs on
them — sums, products, doubling, comparisons — is exact in every scenario the
spec describes), external collaborators (PostGIS backend, HTTP transport,
Python's `json` stdlib decoder) are parameters, and fallible code returns
`Except`.
-/

namespace GisOss

/-! ## String primitives

Python's `str.strip` / `str.lower` / `str.startswith`, re-implemented over
character lists so that every definition in this file evaluates by kernel
reduction (the corresponding Lean core `String` functions do not reduce).
Whitespace is the ASCII set the inputs at issue can contain. -/

/-- ASCII whitespace, the relevant subset of what Python's `str.strip`
removes. -/
def isSpaceChar (c : Char) : Bool :=
  c = ' ' || c = '\t' || c = '\n' || c = '\r'

/-- Python `str.strip()`: drop leading and trailing whitespace. -/
def pyStrip (s : String) : String :=
  String.mk (((s.data.dropWhile isSpaceChar).reverse.dropWhile isSpaceChar).reverse)

/-- ASCII lowercasing of one character (Python `str.lower` on the ASCII
inputs this system handles). -/
def lowerChar (c : Char) : Char :=
  if c.toNat ≥ 65 && c.toNat ≤ 90 then Char.ofNat (c.toNat + 32) else c

/-- Python `str.lower()`. -/
def pyLower (s : String) : String :=
  String.mk (s.data.map lowerChar)

/-- Python `str.startswith(pre)`. -/
def pyStartsWith (s pre : String) : Bool :=
  pre.data.isPrefixOf s.data

/-! ## Authorization (`src/security/authorization.py`) -/

/-- `Role` enum from `authorization.py`. -/
inductive Role
  | publicRole
  | member
  | elder
  | admin
  deriving DecidableEq, Repr

/-- `Permission` enum from `authorization.py`. -/
inductive Permission
  | queryPublic
  | querySensitive
  | querySacred
  | exportData
  deriving DecidableEq, Repr

/-- Spec §3: roles are totally ordered by permission superset
(admin ⊇ elder ⊇ member ⊇ public). Rank in that order. -/
def roleRank : Role → Nat
  | .publicRole => 0
  | .member => 1
  | .elder => 2
  | .admin => 3

/-- `resolve_role_from_api_key` from `authorization.py`: static prefix
strategy. Empty key → public; `admin:`/`elder:`/`member:`/`public:` prefixes
(or the bare word) → that role; any other non-empty key → member. -/
def resolveRoleFromApiKey (apiKey : String) : Role :=
  let normalized := pyLower (pyStrip apiKey)
  if normalized = "" then Role.publicRole
  else if pyStartsWith normalized "admin:" || normalized = "admin" then Role.admin
  else if pyStartsWith normalized "elder:" || normalized = "elder" then Role.elder
  else if pyStartsWith normalized "member:" || normalized = "member" then Role.member
  else if pyStartsWith normalized "public:" || normalized = "public" then Role.publicRole
  else Role.member

/-- `_normalize_role` from `authorization.py`: map a raw role string from the
store to the `Role` enum, `none` when unrecognized. -/
def normalizeRole (rawRole : Option String) : Option Role :=
  match rawRole with
  | none => none
  | some raw =>
    let normalized := pyLower (pyStrip raw)
    if normalized = "public" then some Role.publicRole
    else if normalized = "member" then some Role.member
    else if normalized = "elder" then some Role.elder
    else if normalized = "admin" then some Role.admin
    else none

/-- Behaviour of the persisted role store for one lookup, an external
collaborator of `resolve_role_from_database`: the SQL query either raises,
finds no active row, or returns a raw role string. -/
inductive DbOutcome
  | raises
  | noRow
  | row (rawRole : String)

/-- `resolve_role_from_database` from `authorization.py`, with the SQL query
abstracted to a `DbOutcome`. Empty keys short-circuit to public before any
store access; a found row is normalized with `_normalize_role`; a raised
store error becomes `Except.error`. -/
def resolveRoleFromDatabase (outcome : DbOutcome) (apiKey : String) :
    Except Unit (Option Role) :=
  if pyStrip apiKey = "" then Except.ok (some Role.publicRole)
  else
    match outcome with
    | .raises => Except.error ()
    | .noRow => Except.ok none
    | .row raw => Except.ok (normalizeRole (some raw))

/-- `resolve_role` from `authorization.py`: when the backend is `database`
and a connection is present, try the store lookup, swallowing any exception;
fall back to the static prefix strategy whenever the lookup did not produce
a role. -/
def resolveRole (apiKey : String) (authzBackend : String)
    (conn : Option DbOutcome) : Role :=
  let backend := pyLower (pyStrip authzBackend)
  let dbRole : Option Role :=
    match conn with
    | some outcome =>
      if backend = "database" then
        match resolveRoleFromDatabase outcome apiKey with
        | .ok r => r
        | .error _ => none
      else none
    | none => none
  match dbRole with
  | some role => role
  | none => resolveRoleFromApiKey apiKey

/-- `check_permission` from `authorization.py`: the fixed role→permission
matrix (the Python dict literal), then a membership test. -/
def rolePermissions : Role → List Permission
  | .publicRole => [.queryPublic]
  | .member => [.queryPublic, .querySensitive]
  | .elder => [.queryPublic, .querySensitive, .querySacred]
  | .admin => [.queryPublic, .querySensitive, .querySacred, .exportData]

/-- `check_permission(user_role, required_permission)` from
`authorization.py`. -/
def checkPermission (userRole : Role) (requiredPermission : Permission) : Bool :=
  decide (requiredPermission ∈ rolePermissions userRole)

/-- A credential the static strategy maps to an elevated (above member)
role: an `admin:`/`elder:` prefix or the bare word, after trim+lowercase. -/
def hasElevatedPrefix (apiKey : String) : Bool :=
  let n := pyLower (pyStrip apiKey)
  pyStartsWith n "admin:" || n = "admin" || pyStartsWith n "elder:" || n = "elder"

/-! ## JSON values

Payloads decoded from JSON (Python `dict[str, Any]` and friends) are modelled
by a small JSON value type; an object is its field list (Python dicts decoded
from JSON have no duplicate keys). -/

inductive JsonVal
  | null
  | bool (b : Bool)
  | num (q : ℚ)
  | str (s : String)
  | arr (items : List JsonVal)
  | obj (fields : List (String × JsonVal))

/-- A decoded JSON object: Python `dict[str, Any]`. -/
abbrev RawObject := List (String × JsonVal)

/-- Python `dict` key lookup on a decoded object. -/
def lookupField (raw : RawObject) (k : String) : Option JsonVal :=
  (raw.find? (fun kv => kv.1 == k)).map (fun kv => kv.2)

/-! ## Unit conversion tables (`src/spatial/postgis_ops.py`) -/

/-- `DISTANCE_TO_METERS` from `postgis_ops.py` (float literals as exact
rationals). -/
def DISTANCE_TO_METERS : List (String × ℚ) :=
  [("meter", 1), ("meters", 1), ("metre", 1), ("metres", 1),
   ("kilometer", 1000), ("kilometers", 1000),
   ("kilometre", 1000), ("kilometres", 1000),
   ("mile", 1609344 / 1000), ("miles", 1609344 / 1000),
   ("foot", 3048 / 10000), ("feet", 3048 / 10000), ("ft", 3048 / 10000),
   ("yard", 9144 / 10000), ("yards", 9144 / 10000)]

/-- `AREA_FROM_SQ_METERS` from `postgis_ops.py`. -/
def AREA_FROM_SQ_METERS : List (String × ℚ) :=
  [("square_meter", 1), ("square_meters", 1), ("sqm", 1),
   ("hectare", 1 / 10000), ("hectares", 1 / 10000),
   ("acre", 247105 / 1000000000), ("acres", 247105 / 1000000000),
   ("square_kilometer", 1 / 1000000), ("square_kilometers", 1 / 1000000),
   ("sqkm", 1 / 1000000)]

/-! ## Strict structured-operation validator (`src/nl/strict_parser.py`) -/

/-- `ALLOWED_OPERATIONS` from `strict_parser.py` (listed in sorted order, the
order `", ".join(sorted(...))` uses in the error message). -/
def ALLOWED_OPERATIONS : List String :=
  ["buffer", "calculate_area", "find_intersections", "nearest_neighbors",
   "transform_crs"]

/-- The validated candidate: `StructuredOperationCandidate`'s fields from
`strict_parser.py`, each optional field defaulting to `None`. -/
structure StructuredOperationCandidate where
  operation : String
  geometry : Option RawObject := none
  geometry_b : Option RawObject := none
  table : Option String := none
  limit : Option Int := none
  distance : Option ℚ := none
  units : Option String := none
  srid : Option Int := none
  from_epsg : Option Int := none
  to_epsg : Option Int := none

/-- `_validate_operation` field validator: strip+lowercase, then membership in
the closed operation set, with the message listing the allowed operations. -/
def validateOperationField (value : String) : Except String String :=
  let normalized := pyLower (pyStrip value)
  if ALLOWED_OPERATIONS.contains normalized then Except.ok normalized
  else
    Except.error ("Unsupported operation '" ++ value ++ "'. Allowed: " ++
      String.intercalate ", " ALLOWED_OPERATIONS ++ ".")

/-- `_normalize_units` field validator: strip+lowercase when present. -/
def normalizeUnitsField (value : Option String) : Option String :=
  value.map (fun u => pyLower (pyStrip u))

/-- `_normalize_table` field validator: strip; blank collapses to `None`. -/
def normalizeTableField (value : Option String) : Option String :=
  match value with
  | none => none
  | some t =>
    let stripped := pyStrip t
    if stripped = "" then none else some stripped

/-- The `if op == "buffer":` block of `_validate_requirements`. -/
def bufferRequirementCheck (c : StructuredOperationCandidate) :
    Except String Unit :=
  if c.operation = "buffer" then
    if c.geometry.isNone || c.distance.isNone then
      Except.error "Buffer requires 'geometry' and 'distance'."
    else
      match c.units with
      | some u =>
        if !(DISTANCE_TO_METERS.map Prod.fst).contains u then
          Except.error ("Unsupported distance unit '" ++ u ++ "'.")
        else Except.ok ()
      | none => Except.ok ()
  else Except.ok ()

/-- The `if op == "calculate_area":` block of `_validate_requirements`. -/
def areaRequirementCheck (c : StructuredOperationCandidate) :
    Except String Unit :=
  if c.operation = "calculate_area" then
    if c.geometry.isNone then
      Except.error "Area calculation requires 'geometry'."
    else
      match c.units with
      | some u =>
        if !(AREA_FROM_SQ_METERS.map Prod.fst).contains u then
          Except.error ("Unsupported area unit '" ++ u ++ "'.")
        else Except.ok ()
      | none => Except.ok ()
  else Except.ok ()

/-- The `if op == "find_intersections":` block of
`_validate_requirements`. -/
def intersectionRequirementCheck (c : StructuredOperationCandidate) :
    Except String Unit :=
  if c.operation = "find_intersections" then
    if c.geometry.isNone || c.geometry_b.isNone then
      Except.error "Intersection requires both 'geometry' and 'geometry_b'."
    else Except.ok ()
  else Except.ok ()

/-- The `if op == "nearest_neighbors":` block of
`_validate_requirements`. -/
def nearestRequirementCheck (c : StructuredOperationCandidate) :
    Except String Unit :=
  if c.operation = "nearest_neighbors" then
    if c.geometry.isNone then
      Except.error "Nearest neighbors requires 'geometry'."
    else
      match c.limit with
      | some l =>
        if l ≤ 0 then Except.error "Nearest neighbors requires 'limit' > 0."
        else Except.ok ()
      | none => Except.ok ()
  else Except.ok ()

/-- The `if op == "transform_crs":` block of `_validate_requirements`. -/
def transformRequirementCheck (c : StructuredOperationCandidate) :
    Except String Unit :=
  if c.operation = "transform_crs" then
    if c.geometry.isNone || c.from_epsg.isNone || c.to_epsg.isNone then
      Except.error
        "CRS transformation requires 'geometry', 'from_epsg', and 'to_epsg'."
    else Except.ok ()
  else Except.ok ()

/-- `_validate_requirements` model validator from `strict_parser.py`: the
per-operation required-field and unit checks, run in source order with the
first failure winning, returning the candidate unchanged on success. -/
def validateRequirements (c : StructuredOperationCandidate) :
    Except String StructuredOperationCandidate := do
  bufferRequirementCheck c
  areaRequirementCheck c
  intersectionRequirementCheck c
  nearestRequirementCheck c
  transformRequirementCheck c
  pure c

/-- The recognized field set of `StructuredOperationCandidate`
(`model_config = ConfigDict(extra="forbid")` closes the schema over exactly
these keys). -/
def recognizedFields : List String :=
  ["operation", "geometry", "geometry_b", "table", "limit", "distance",
   "units", "srid", "from_epsg", "to_epsg"]

/-- First key of the raw object outside the recognized set, if any (what
pydantic's `extra="forbid"` rejects). -/
def findExtraKey (raw : RawObject) : Option String :=
  (raw.map Prod.fst).find? (fun k => !recognizedFields.contains k)

/-- Pydantic parse of an optional `dict[str, Any]` field: absent or JSON
null gives `None`; a JSON object is accepted; anything else is a type
error. -/
def getOptObjField (raw : RawObject) (k : String) :
    Except String (Option RawObject) :=
  match lookupField raw k with
  | none => Except.ok none
  | some JsonVal.null => Except.ok none
  | some (JsonVal.obj o) => Except.ok (some o)
  | some _ => Except.error (k ++ ": input should be a valid dictionary")

/-- Pydantic parse of an optional `str` field. -/
def getOptStrField (raw : RawObject) (k : String) :
    Except String (Option String) :=
  match lookupField raw k with
  | none => Except.ok none
  | some JsonVal.null => Except.ok none
  | some (JsonVal.str s) => Except.ok (some s)
  | some _ => Except.error (k ++ ": input should be a valid string")

/-- Pydantic parse of an optional `int` field (a JSON number with integral
value). -/
def getOptIntField (raw : RawObject) (k : String) :
    Except String (Option Int) :=
  match lookupField raw k with
  | none => Except.ok none
  | some JsonVal.null => Except.ok none
  | some (JsonVal.num q) =>
    if q.den = 1 then Except.ok (some q.num)
    else Except.error (k ++ ": input should be a valid integer")
  | some _ => Except.error (k ++ ": input should be a valid integer")

/-- Pydantic parse of an optional `float` field. -/
def getOptNumField (raw : RawObject) (k : String) :
    Except String (Option ℚ) :=
  match lookupField raw k with
  | none => Except.ok none
  | some JsonVal.null => Except.ok none
  | some (JsonVal.num q) => Except.ok (some q)
  | some _ => Except.error (k ++ ": input should be a valid number")

/-- Field-level validation of `StructuredOperationCandidate.model_validate`:
the closed-schema key check (`extra="forbid"`), the required `operation`
string, per-field type parses, and the field validators
(`_validate_operation`, `_normalize_units`, `_normalize_table`). -/
def parseCandidateFields (raw : RawObject) :
    Except String StructuredOperationCandidate := do
  match findExtraKey raw with
  | some k => throw (k ++ ": extra fields are not permitted")
  | none => pure ()
  let operationRaw ← match lookupField raw "operation" with
    | some (JsonVal.str s) => pure s
    | some _ => throw "operation: input should be a valid string"
    | none => throw "operation: field required"
  let operation ← validateOperationField operationRaw
  let geometry ← getOptObjField raw "geometry"
  let geometry_b ← getOptObjField raw "geometry_b"
  let table ← getOptStrField raw "table"
  let limit ← getOptIntField raw "limit"
  let distance ← getOptNumField raw "distance"
  let units ← getOptStrField raw "units"
  let srid ← getOptIntField raw "srid"
  let from_epsg ← getOptIntField raw "from_epsg"
  let to_epsg ← getOptIntField raw "to_epsg"
  pure
    { operation := operation
      geometry := geometry
      geometry_b := geometry_b
      table := normalizeTableField table
      limit := limit
      distance := distance
      units := normalizeUnitsField units
      srid := srid
      from_epsg := from_epsg
      to_epsg := to_epsg }

/-- `StructuredOperationCandidate.model_validate`: field-level validation
followed by the `_validate_requirements` model validator — the single strict
validator of `strict_parser.py`. -/
def modelValidateCandidate (raw : RawObject) :
    Except String StructuredOperationCandidate :=
  (parseCandidateFields raw).bind validateRequirements

/-! ## Request model and dispatcher (`src/api/main.py`) -/

/-- `QueryRequest` pydantic model from `main.py` (defaults as declared
there). Pydantic's default `extra` behaviour — this model sets no
`model_config` — silently ignores unrecognized keys. -/
structure QueryRequest where
  prompt : String
  return_format : String := "geojson"
  include_confidence : Bool := false
  operation : Option String := none
  geometry : Option RawObject := none
  geometry_b : Option RawObject := none
  table : String := "data.features"
  limit : Int := 5
  distance : Option ℚ := none
  units : Option String := none
  srid : Int := 4326
  from_epsg : Option Int := none
  to_epsg : Option Int := none

/-- Pydantic parse of a required `str` field. -/
def getReqStrField (raw : RawObject) (k : String) : Except String String :=
  match lookupField raw k with
  | some (JsonVal.str s) => Except.ok s
  | some _ => Except.error (k ++ ": input should be a valid string")
  | none => Except.error (k ++ ": field required")

/-- Pydantic parse of an optional `bool` field with a default. -/
def getBoolFieldD (raw : RawObject) (k : String) (dflt : Bool) :
    Except String Bool :=
  match lookupField raw k with
  | none => Except.ok dflt
  | some (JsonVal.bool b) => Except.ok b
  | some _ => Except.error (k ++ ": input should be a valid boolean")

/-- Pydantic range check `ge ≤ v ≤ le` on an `int` field. -/
def checkIntRange (k : String) (lo hi : Int) (v : Int) : Except String Int :=
  if v < lo then Except.error (k ++ ": input should be greater than or equal to " ++ toString lo)
  else if hi < v then Except.error (k ++ ": input should be less than or equal to " ++ toString hi)
  else Except.ok v

/-- `QueryRequest.model_validate` from `main.py`: pydantic-default open
schema (unrecognized keys are silently ignored, there is no
`extra="forbid"` on this model), field defaults, and the declared
constraints (`limit` in 1..100, `distance ≥ 0`, `srid`/`from_epsg`/`to_epsg`
in 1..999999). -/
def modelValidateQueryRequest (raw : RawObject) : Except String QueryRequest := do
  let prompt ← getReqStrField raw "prompt"
  let return_format := match lookupField raw "return_format" with
    | some (JsonVal.str s) => s
    | _ => "geojson"
  let include_confidence ← getBoolFieldD raw "include_confidence" false
  let operation ← getOptStrField raw "operation"
  let geometry ← getOptObjField raw "geometry"
  let geometry_b ← getOptObjField raw "geometry_b"
  let tableOpt ← getOptStrField raw "table"
  let table := tableOpt.getD "data.features"
  let limitOpt ← getOptIntField raw "limit"
  let limit ← match limitOpt with
    | none => pure 5
    | some l => checkIntRange "limit" 1 100 l
  let distance ← getOptNumField raw "distance"
  let distance ← match distance with
    | none => pure none
    | some d =>
      if d < 0 then throw "distance: input should be greater than or equal to 0"
      else pure (some d)
  let units ← getOptStrField raw "units"
  let sridOpt ← getOptIntField raw "srid"
  let srid ← match sridOpt with
    | none => pure 4326
    | some v => checkIntRange "srid" 1 999999 v
  let from_epsgOpt ← getOptIntField raw "from_epsg"
  let from_epsg ← match from_epsgOpt with
    | none => pure none
    | some v => (checkIntRange "from_epsg" 1 999999 v).map some
  let to_epsgOpt ← getOptIntField raw "to_epsg"
  let to_epsg ← match to_epsgOpt with
    | none => pure none
    | some v => (checkIntRange "to_epsg" 1 999999 v).map some
  pure
    { prompt := prompt
      return_format := return_format
      include_confidence := include_confidence
      operation := operation
      geometry := geometry
      geometry_b := geometry_b
      table := table
      limit := limit
      distance := distance
      units := units
      srid := srid
      from_epsg := from_epsg
      to_epsg := to_epsg }

/-- The `/query/natural` endpoint's request construction (`main.py` lines
331-338): `QueryRequest.model_validate({prompt, return_format,
include_confidence, **candidate.model_dump(exclude_none=True)})`,
specialized to the already-typed candidate: omitted (`None`) candidate
fields take the `QueryRequest` defaults, present fields are range-checked by
the `QueryRequest` constraints. -/
def buildStructuredRequest (prompt return_format : String)
    (include_confidence : Bool) (c : StructuredOperationCandidate) :
    Except String QueryRequest := do
  let limit ← match c.limit with
    | none => pure 5
    | some l => checkIntRange "limit" 1 100 l
  let distance ← match c.distance with
    | none => pure none
    | some d =>
      if d < 0 then throw "distance: input should be greater than or equal to 0"
      else pure (some d)
  let srid ← match c.srid with
    | none => pure 4326
    | some v => checkIntRange "srid" 1 999999 v
  let from_epsg ← match c.from_epsg with
    | none => pure none
    | some v => (checkIntRange "from_epsg" 1 999999 v).map some
  let to_epsg ← match c.to_epsg with
    | none => pure none
    | some v => (checkIntRange "to_epsg" 1 999999 v).map some
  pure
    { prompt := prompt
      return_format := return_format
      include_confidence := include_confidence
      operation := some c.operation
      geometry := c.geometry
      geometry_b := c.geometry_b
      table := c.table.getD "data.features"
      limit := limit
      distance := distance
      units := c.units
      srid := srid
      from_epsg := from_epsg
      to_epsg := to_epsg }

/-- The PostGIS backend (`src/spatial/postgis_ops.py` + the database), an
external collaborator of the dispatcher: each operation either returns a
result or raises a database error (`psycopg2.Error`). -/
structure SpatialBackend where
  bufferGeometry : RawObject → ℚ → String → Int → Except Unit RawObject
  calculateArea : RawObject → String → Int → Except Unit ℚ
  findIntersections : RawObject → RawObject → Int → Except Unit RawObject
  nearestNeighbors : RawObject → String → Int → Int → Except Unit (List JsonVal)
  transformCrs : RawObject → Int → Int → Except Unit RawObject

/-- Failure class of `_execute_structured_operation`: a Python `ValueError`
(invalid parameters, surfaced as 400 with the message) or a propagated
`psycopg2.Error` (surfaced as a generic 400). -/
inductive OpError
  | invalidParameters (msg : String)
  | dbError
  deriving DecidableEq

/-- Insertion sort over strings: Python's `sorted` on the inputs at issue. -/
def insertSorted (s : String) : List String → List String
  | [] => [s]
  | t :: ts => if s ≤ t then s :: t :: ts else t :: insertSorted s ts

/-- Python `sorted` for lists of strings. -/
def sortStrings : List String → List String
  | [] => []
  | s :: ss => insertSorted s (sortStrings ss)

/-- The "table not permitted" message of `_execute_structured_operation`,
listing `", ".join(sorted(allowed_query_tables))`. -/
def tableNotPermittedMsg (table : String) (allowedQueryTables : List String) :
    String :=
  "Table '" ++ table ++ "' is not permitted. Allowed tables: " ++
    String.intercalate ", " (sortStrings allowedQueryTables.dedup) ++ "."

/-- `_execute_structured_operation` from `main.py`: lowercase the operation,
check the operation-specific required fields, enforce the table allow-list
for `nearest_neighbors`, and forward to the corresponding backend call.
The allow-list (`allowed_query_tables`, deployment configuration parsed in
`main.py`) and the backend are parameters. -/
def executeStructuredOperation (allowedQueryTables : List String)
    (backend : SpatialBackend) (req : QueryRequest) : Except OpError RawObject :=
  match req.operation with
  | none =>
    -- `main.py` asserts `request.operation is not None`; the endpoint only
    -- dispatches when `request.operation` is truthy.
    Except.error (OpError.invalidParameters "Operation missing.")
  | some operationRaw =>
    let op := pyLower operationRaw
    if op = "buffer" then
      match req.geometry, req.distance with
      | some g, some d =>
        let units := match req.units with
          | none => "meters"
          | some u => if u = "" then "meters" else u
        match backend.bufferGeometry g d units req.srid with
        | .ok buffered =>
          .ok [("geometry", JsonVal.obj buffered), ("units", JsonVal.str units)]
        | .error _ => .error OpError.dbError
      | _, _ =>
        .error (.invalidParameters "Buffer requires 'geometry' and 'distance'.")
    else if op = "calculate_area" then
      match req.geometry with
      | some g =>
        let units := match req.units with
          | none => "square_meters"
          | some u => if u = "" then "square_meters" else u
        match backend.calculateArea g units req.srid with
        | .ok area => .ok [("area", JsonVal.num area), ("units", JsonVal.str units)]
        | .error _ => .error OpError.dbError
      | none => .error (.invalidParameters "Area calculation requires 'geometry'.")
    else if op = "find_intersections" then
      match req.geometry, req.geometry_b with
      | some g, some gb =>
        match backend.findIntersections g gb req.srid with
        | .ok inter => .ok [("geometry", JsonVal.obj inter)]
        | .error _ => .error OpError.dbError
      | _, _ =>
        .error (.invalidParameters "Intersection requires both 'geometry' and 'geometry_b'.")
    else if op = "nearest_neighbors" then
      match req.geometry with
      | some g =>
        let table := pyStrip req.table
        if !allowedQueryTables.contains table then
          .error (.invalidParameters (tableNotPermittedMsg table allowedQueryTables))
        else
          match backend.nearestNeighbors g table req.limit req.srid with
          | .ok features =>
            .ok [("features", JsonVal.arr features),
                 ("limit", JsonVal.num (req.limit : ℚ))]
          | .error _ => .error OpError.dbError
      | none => .error (.invalidParameters "Nearest neighbors requires 'geometry'.")
    else if op = "transform_crs" then
      match req.geometry, req.from_epsg, req.to_epsg with
      | some g, some fe, some te =>
        match backend.transformCrs g fe te with
        | .ok transformed => .ok [("geometry", JsonVal.obj transformed)]
        | .error _ => .error OpError.dbError
      | _, _, _ =>
        .error
          (.invalidParameters
            "CRS transformation requires 'geometry', 'from_epsg', and 'to_epsg'.")
    else .error (.invalidParameters ("Unsupported operation '" ++ operationRaw ++ "'."))

/-! ## Natural-language extraction (`src/nl/strict_parser.py`) -/

/-- The opening-brace character scanned for by `_extract_json_objects`. -/
def lbrace : Char := Char.ofNat 123

/-- Python's `json.JSONDecoder().raw_decode`, an external (stdlib)
collaborator: attempt to decode one JSON value at the start of the given
text, reporting the value and how many characters were consumed. A
successful decode of text that starts with an opening brace consumes at
least one character (the brace itself), which the subtype records. -/
def RawDecoder : Type :=
  List Char → Option (JsonVal × {n : ℕ // 0 < n})

/-- Scan loop of `_extract_json_objects`: walk the text left to right; at
each `{` attempt one decode, recording the value when it is an object and
advancing past the consumed characters; advance by one character on decode
failure or a non-brace character. Structured with fuel equal to the text
length, which the ≥1-character consumption makes sufficient. -/
def scanJsonObjectsAux (decode : RawDecoder) :
    Nat → List Char → List RawObject
  | 0, _ => []
  | _, [] => []
  | fuel + 1, c :: rest =>
    if c = lbrace then
      match decode (c :: rest) with
      | some (JsonVal.obj o, n) =>
        o :: scanJsonObjectsAux decode fuel ((c :: rest).drop n.1)
      | some (_, n) => scanJsonObjectsAux decode fuel ((c :: rest).drop n.1)
      | none => scanJsonObjectsAux decode fuel rest
    else scanJsonObjectsAux decode fuel rest

/-- `_extract_json_objects` from `strict_parser.py` (only decoded values
that are objects are recorded). -/
def extractJsonObjects (decode : RawDecoder) (text : String) : List RawObject :=
  scanJsonObjectsAux decode text.data.length text.data

/-- The zero-candidate error of `parse_natural_query_prompt`. -/
def couldNotParseMsg : String :=
  "Could not parse a structured operation JSON object from prompt. " ++
  "Embed exactly one JSON object with 'operation' and required fields."

/-- The many-candidate error of `parse_natural_query_prompt`. -/
def multipleOperationsMsg : String :=
  "Multiple operation JSON objects found in prompt. " ++
  "Provide exactly one operation object."

/-- The candidate list of `parse_natural_query_prompt`: the extracted JSON
objects containing an `operation` key. -/
def operationCandidates (decode : RawDecoder) (prompt : String) :
    List RawObject :=
  (extractJsonObjects decode prompt).filter
    (fun o => (o.map Prod.fst).contains "operation")

/-- `parse_natural_query_prompt` from `strict_parser.py`: zero candidates
and more than one candidate are distinct errors; the sole candidate goes
through `StructuredOperationCandidate.model_validate`, whose error message
is propagated (as `NaturalQueryParseError`). Parameters are never inferred
from prose: the result depends only on the extracted JSON objects. -/
def parseNaturalQueryPrompt (decode : RawDecoder) (prompt : String) :
    Except String StructuredOperationCandidate :=
  match operationCandidates decode prompt with
  | [] => Except.error couldNotParseMsg
  | [c] => modelValidateCandidate c
  | _ => Except.error multipleOperationsMsg

/-- Modelled from the spec: `validate_structured_operation_payload` of
`src/nl/strict_parser.py` — exported by `src/nl/__init__.py` and called by
the LLM planner (`src/llm/planner.py`), but absent from the module as
provided. Spec §4.3(e): the parsed LLM output is passed "through the
identical Validator used elsewhere (§4.1)". -/
def validateStructuredOperationPayload (raw : RawObject) :
    Except String StructuredOperationCandidate :=
  modelValidateCandidate raw

/-! ## Grounding / evidence builder (spec §4.6) -/

/-- One evidence entry: a `{source_kind, source_id, verification}` triple
(spec §3). -/
structure EvidenceEntry where
  source_kind : String
  source_id : String
  verification : String
  deriving DecidableEq

/-- Modelled from the spec: `_build_grounding_evidence` of `src/api/main.py`
— referenced by the repository's unit tests and eval scripts
(`tests/unit/api/test_main.py`, `scripts/run_grounding_eval.py`) but absent
from the module as provided. Spec §4.6: results derived from caller-supplied
geometry are `verified` (buffer, area, intersection, reprojection);
backend-queried records (`nearest_neighbors`) are `unverified`; the overall
status is `verified` only when every evidence entry is verified (a pending
request with no executed operation carries an empty evidence list and an
`unverified` status, per the repository's tests). -/
def buildGroundingEvidence (req : QueryRequest) : String × List EvidenceEntry :=
  let entries : List EvidenceEntry :=
    match req.operation with
    | none => []
    | some opRaw =>
      let op := pyLower opRaw
      if op = "nearest_neighbors" then
        [{ source_kind := "queried_table", source_id := pyStrip req.table,
           verification := "unverified" }]
      else if op = "buffer" ∨ op = "calculate_area" ∨
          op = "find_intersections" ∨ op = "transform_crs" then
        (match req.geometry with
         | some _ =>
           [{ source_kind := "input_geometry", source_id := "request.geometry",
              verification := "verified" }]
         | none => []) ++
        (if op = "find_intersections" then
          match req.geometry_b with
          | some _ =>
            [{ source_kind := "input_geometry",
               source_id := "request.geometry_b", verification := "verified" }]
          | none => []
        else [])
      else []
  let status :=
    if entries ≠ [] ∧ entries.all (fun e => e.verification == "verified") then
      "verified"
    else "unverified"
  (status, entries)

/-! ## LLM provider retry loop (`src/llm/ollama_client.py`) -/

/-- The planner error taxonomy of `src/llm/provider.py` relevant to the
client: provider unreachable vs. provider output malformed. -/
inductive LLMPlannerError
  | unavailable (msg : String)
  | outputError (msg : String)
  deriving DecidableEq

/-- The observable outcome of one HTTP attempt against the provider, an
external collaborator: a transport-layer failure (`httpx.TimeoutException`,
`httpx.NetworkError`, or `raise_for_status` on a non-2xx) or a 2xx response
whose JSON body decoded to an object. -/
inductive AttemptOutcome
  | transportError
  | response (data : RawObject)

/-- Python's `json.loads`, an external (stdlib) collaborator: decode a
complete JSON document, `none` on `JSONDecodeError`. -/
def JsonLoads : Type := String → Option JsonVal

/-- Body of a successful HTTP attempt in
`OllamaPlannerClient.generate_structured_operation`: require a string
`response` field, decode it as JSON, require an object. These failures are
`LLMPlannerOutputError`s and are not retried. -/
def processOllamaResponse (jsonLoads : JsonLoads) (data : RawObject) :
    Except LLMPlannerError RawObject :=
  match lookupField data "response" with
  | some (JsonVal.str raw) =>
    match jsonLoads raw with
    | none => .error (.outputError "LLM output is not valid JSON.")
    | some (JsonVal.obj o) => .ok o
    | some _ => .error (.outputError "LLM output must be a JSON object.")
  | _ => .error (.outputError "Ollama response missing string field 'response'.")

/-- The retry loop of `generate_structured_operation`, indexed by the
current attempt number, the attempts remaining, and the current backoff
delay (seconds): a transport failure on the last attempt raises
`LLMPlannerUnavailableError`; otherwise the loop sleeps the current delay,
doubles it, and retries. Returns the result, the number of attempts made,
and the list of sleeps performed. -/
def ollamaAttemptLoop (jsonLoads : JsonLoads)
    (outcomes : Nat → AttemptOutcome) :
    Nat → Nat → ℚ → Except LLMPlannerError RawObject × Nat × List ℚ
  | attemptIdx, 0, _ =>
    -- the unreachable final `raise` after the loop
    (.error (.unavailable "LLM provider unavailable."), attemptIdx, [])
  | attemptIdx, r + 1, delay =>
    match outcomes attemptIdx with
    | .response data => (processOllamaResponse jsonLoads data, attemptIdx + 1, [])
    | .transportError =>
      if r = 0 then
        (.error (.unavailable "LLM provider unavailable."), attemptIdx + 1, [])
      else
        let next := ollamaAttemptLoop jsonLoads outcomes (attemptIdx + 1) r (delay * 2)
        (next.1, next.2.1, delay :: next.2.2)

/-- `OllamaPlannerClient.generate_structured_operation`: the constructor
clamps `max_retries` below at 0 (`max(max_retries, 0)`), the loop makes up
to `max_retries + 1` attempts, and the backoff delay starts at 0.2 seconds,
doubling after each retried failure. -/
def generateStructuredOperation (maxRetries : Int) (jsonLoads : JsonLoads)
    (outcomes : Nat → AttemptOutcome) :
    Except LLMPlannerError RawObject × Nat × List ℚ :=
  ollamaAttemptLoop jsonLoads outcomes 0 ((max maxRetries 0).toNat + 1) (1 / 5)

/-! ## Rate limiter (`src/security/rate_limit.py`) -/

/-- One token bucket: token count and last-update timestamp (both Python
floats, modelled as rationals). -/
structure RateBucket where
  tokens : ℚ
  updated : ℚ
  deriving DecidableEq

/-- The `OrderedDict` of buckets: association list in insertion/use order,
head = least recently used. -/
abbrev BucketMap := List (String × RateBucket)

/-- The limiter's configuration-derived fields set by
`RateLimiter.__init__`. -/
structure RateLimiter where
  capacity : ℚ
  refillRate : ℚ
  maxIdentifiers : Nat
  bucketTtlSeconds : ℚ

/-- `RateLimiter.__init__`: parameter validation; `capacity` is the burst
override when given, else `max_requests`; `refill_rate` is
`max_requests / window_seconds`. -/
def mkRateLimiter (maxRequests windowSeconds : Int) (burst : Option Int)
    (maxIdentifiers : Int) (bucketTtlSeconds : Int) :
    Except String RateLimiter :=
  if maxRequests ≤ 0 ∨ windowSeconds ≤ 0 then
    .error "Rate limiter requires positive max_requests and window_seconds."
  else if maxIdentifiers ≤ 0 ∨ bucketTtlSeconds ≤ 0 then
    .error "Rate limiter requires positive max_identifiers and bucket_ttl_seconds."
  else
    .ok { capacity := ((burst.getD maxRequests : Int) : ℚ)
          refillRate := (maxRequests : ℚ) / (windowSeconds : ℚ)
          maxIdentifiers := maxIdentifiers.toNat
          bucketTtlSeconds := (bucketTtlSeconds : ℚ) }

/-- `RateLimiter._refill`: no-op when no time elapsed; otherwise add
`elapsed × refill_rate` tokens capped at capacity and stamp `updated`. -/
def refillBucket (rl : RateLimiter) (b : RateBucket) (now : ℚ) : RateBucket :=
  let elapsed := now - b.updated
  if elapsed ≤ 0 then b
  else { tokens := min rl.capacity (b.tokens + elapsed * rl.refillRate)
         updated := now }

/-- `RateLimiter._evict_stale`: drop every bucket idle for at least the
TTL. -/
def evictStale (rl : RateLimiter) (now : ℚ) (buckets : BucketMap) : BucketMap :=
  buckets.filter (fun kb => !(decide (rl.bucketTtlSeconds ≤ now - kb.2.updated)))

/-- `OrderedDict` lookup by identifier. -/
def lookupBucket (buckets : BucketMap) (id : String) : Option RateBucket :=
  (buckets.find? (fun kb => kb.1 == id)).map (fun kb => kb.2)

/-- In-place value update of an existing `OrderedDict` entry (position
preserved), as `_refill`'s dict mutation does. -/
def setBucketInPlace (buckets : BucketMap) (id : String) (b : RateBucket) :
    BucketMap :=
  buckets.map (fun kb => if kb.1 == id then (kb.1, b) else kb)

/-- `RateLimiter.check`: lazily evict stale buckets, look up (or create at
capacity) the identifier's bucket — evicting the least-recently-used bucket
when a new identifier arrives at the identifier cap — refill, then either
fail (fewer than 1 token; `RateLimitExceeded`, with the in-place refill and
the evictions retained) or consume one token and move the identifier to the
most-recently-used end. Returns `(allowed?, new bucket table)`. -/
def RateLimiter.check (rl : RateLimiter) (buckets : BucketMap) (id : String)
    (now : ℚ) : Bool × BucketMap :=
  let bs := evictStale rl now buckets
  match lookupBucket bs id with
  | some b =>
    let b' := refillBucket rl b now
    if b'.tokens < 1 then (false, setBucketInPlace bs id b')
    else
      let nb : RateBucket := { tokens := b'.tokens - 1, updated := b'.updated }
      (true, bs.filter (fun kb => !(kb.1 == id)) ++ [(id, nb)])
  | none =>
    let bs' := if rl.maxIdentifiers ≤ bs.length then bs.drop 1 else bs
    let b := refillBucket rl { tokens := rl.capacity, updated := now } now
    if b.tokens < 1 then (false, bs')
    else (true, bs' ++ [(id, { tokens := b.tokens - 1, updated := b.updated })])

/-- A decoder refusing every position (instantiates extraction theorems on
prose-only prompts). -/
def noDecode : RawDecoder := fun _ => none

/-- A decoder producing one buffer-operation object, consuming one
character (instantiates extraction theorems on a single embedded
object). -/
def constOpDecode : RawDecoder :=
  fun _ => some (JsonVal.obj [("operation", JsonVal.str "buffer")], ⟨1, Nat.one_pos⟩)

/-- The recognized keys of the `QueryRequest` model in `main.py` (its
declared fields; pydantic ignores all others on this model). -/
def queryRequestRecognizedKeys : List String :=
  ["prompt", "return_format", "include_confidence", "operation", "geometry",
   "geometry_b", "table", "limit", "distance", "units", "srid", "from_epsg",
   "to_epsg"]

/-- A trivial backend instance (used to instantiate theorems at concrete
inputs; the dispatcher properties at issue hold for every backend). -/
def stubBackend : SpatialBackend :=
  { bufferGeometry := fun g _ _ _ => .ok g
    calculateArea := fun _ _ _ => .ok 0
    findIntersections := fun g _ _ => .ok g
    nearestNeighbors := fun _ _ _ _ => .ok []
    transformCrs := fun g _ _ => .ok g }

/-- C5: the permission check is a pure function of role and permission
matching the fixed matrix exactly: public holds query:public only; member
adds query:sensitive; elder adds query:sacred; admin adds export:data; and
every role is denied every permission outside its documented superset. -/
theorem C5_permission_matrix_exact :
    ∀ (r : Role) (p : Permission),
      checkPermission r p = true ↔
        ((r = Role.publicRole ∧ p = Permission.queryPublic) ∨
         (r = Role.member ∧
           (p = Permission.queryPublic ∨ p = Permission.querySensitive)) ∨
         (r = Role.elder ∧
           (p = Permission.queryPublic ∨ p = Permission.querySensitive ∨
            p = Permission.querySacred)) ∨
         (r = Role.admin ∧
           (p = Permission.queryPublic ∨ p = Permission.querySensitive ∨
            p = Permission.querySacred ∨ p = Permission.exportData))) := by
  intro r p
  cases r <;> cases p <;> decide

/-- C3 counterexample: with the persisted store failing (the lookup raises),
an `admin:`-prefixed credential falls back to the static prefix strategy and
is granted `admin` — a role strictly above member, holding `export:data`,
which member lacks. The fallback therefore can grant more than member. -/
theorem C3_counterexample_fallback_grants_admin :
    resolveRole "admin:store-down" "database" (some DbOutcome.raises) = Role.admin ∧
    roleRank Role.member < roleRank Role.admin ∧
    checkPermission Role.admin Permission.exportData = true ∧
    checkPermission Role.member Permission.exportData = false := by
  refine ⟨by decide, by decide, by decide, by decide⟩

/-- C3 (amended): on a database lookup failure of any kind — the store
raises, no active row exists, or the stored role string is unrecognized —
and likewise when no connection or a non-database backend is configured,
`resolve_role` falls back to the static prefix strategy instead of failing;
and for every credential without an elevated (`admin:`/`elder:`) prefix the
fallback grants at most member. (Credentials carrying an elevated prefix
retain their prefix role under the fallback.) -/
theorem C3_fallback_on_lookup_failure :
    (∀ (apiKey backend : String) (outcome : DbOutcome),
      (resolveRoleFromDatabase outcome apiKey = Except.error () ∨
       resolveRoleFromDatabase outcome apiKey = Except.ok none) →
      resolveRole apiKey backend (some outcome) = resolveRoleFromApiKey apiKey) ∧
    (∀ (apiKey backend : String),
      resolveRole apiKey backend none = resolveRoleFromApiKey apiKey) ∧
    (∀ apiKey : String, hasElevatedPrefix apiKey = false →
      roleRank (resolveRoleFromApiKey apiKey) ≤ roleRank Role.member) := by
  refine ⟨?_, ?_, ?_⟩
  · intro apiKey backend outcome h
    unfold resolveRole
    rcases h with h | h <;> simp [h]
  · intro apiKey backend
    simp [resolveRole]
  · intro apiKey h
    simp only [hasElevatedPrefix, Bool.or_eq_false_iff] at h
    obtain ⟨⟨⟨h1, h2⟩, h3⟩, h4⟩ := h
    unfold resolveRoleFromApiKey
    simp only [h1, h2, h3, h4]
    split_ifs <;> simp_all [roleRank]

/-- C3 witness: the amended theorem applied at concrete inputs — an unknown
opaque key with a store that finds no row falls back to the prefix strategy
(yielding member), and the fallback for that key is bounded by member. -/
theorem C3_fallback_witness :
    resolveRole "opaque-key" "database" (some DbOutcome.noRow) =
      resolveRoleFromApiKey "opaque-key" ∧
    roleRank (resolveRoleFromApiKey "opaque-key") ≤ roleRank Role.member :=
  ⟨C3_fallback_on_lookup_failure.1 "opaque-key" "database" DbOutcome.noRow
      (Or.inr rfl),
   C3_fallback_on_lookup_failure.2.2 "opaque-key" (by decide)⟩

end GisOss

namespace GisOss

/-- C1: for each of the five operations, a candidate that omits any field
the operation requires (buffer: geometry, distance; calculate_area:
geometry; find_intersections: geometry, geometry_b; nearest_neighbors:
geometry; transform_crs: geometry, from_epsg, to_epsg) fails validation
with the error naming that operation's requirement — in the strict
validator `_validate_requirements` (used by the natural-language extraction
and LLM paths) and equally in the dispatcher
`_execute_structured_operation` (the direct structured-JSON path); the last
conjunct records that `model_validate`'s outcome on a field-parsed
candidate is exactly `_validate_requirements`'s. -/
theorem C1_required_fields_fail_on_every_path :
    (∀ c : StructuredOperationCandidate, c.operation = "buffer" →
      c.geometry = none ∨ c.distance = none →
      validateRequirements c =
        Except.error "Buffer requires 'geometry' and 'distance'.") ∧
    (∀ c : StructuredOperationCandidate, c.operation = "calculate_area" →
      c.geometry = none →
      validateRequirements c =
        Except.error "Area calculation requires 'geometry'.") ∧
    (∀ c : StructuredOperationCandidate, c.operation = "find_intersections" →
      c.geometry = none ∨ c.geometry_b = none →
      validateRequirements c =
        Except.error "Intersection requires both 'geometry' and 'geometry_b'.") ∧
    (∀ c : StructuredOperationCandidate, c.operation = "nearest_neighbors" →
      c.geometry = none →
      validateRequirements c =
        Except.error "Nearest neighbors requires 'geometry'.") ∧
    (∀ c : StructuredOperationCandidate, c.operation = "transform_crs" →
      c.geometry = none ∨ c.from_epsg = none ∨ c.to_epsg = none →
      validateRequirements c =
        Except.error
          "CRS transformation requires 'geometry', 'from_epsg', and 'to_epsg'.") ∧
    (∀ (allowed : List String) (backend : SpatialBackend) (req : QueryRequest)
      (op : String), req.operation = some op → pyLower op = "buffer" →
      req.geometry = none ∨ req.distance = none →
      executeStructuredOperation allowed backend req =
        Except.error
          (OpError.invalidParameters "Buffer requires 'geometry' and 'distance'.")) ∧
    (∀ (allowed : List String) (backend : SpatialBackend) (req : QueryRequest)
      (op : String), req.operation = some op → pyLower op = "calculate_area" →
      req.geometry = none →
      executeStructuredOperation allowed backend req =
        Except.error
          (OpError.invalidParameters "Area calculation requires 'geometry'.")) ∧
    (∀ (allowed : List String) (backend : SpatialBackend) (req : QueryRequest)
      (op : String), req.operation = some op → pyLower op = "find_intersections" →
      req.geometry = none ∨ req.geometry_b = none →
      executeStructuredOperation allowed backend req =
        Except.error
          (OpError.invalidParameters
            "Intersection requires both 'geometry' and 'geometry_b'.")) ∧
    (∀ (allowed : List String) (backend : SpatialBackend) (req : QueryRequest)
      (op : String), req.operation = some op → pyLower op = "nearest_neighbors" →
      req.geometry = none →
      executeStructuredOperation allowed backend req =
        Except.error
          (OpError.invalidParameters "Nearest neighbors requires 'geometry'.")) ∧
    (∀ (allowed : List String) (backend : SpatialBackend) (req : QueryRequest)
      (op : String), req.operation = some op → pyLower op = "transform_crs" →
      req.geometry = none ∨ req.from_epsg = none ∨ req.to_epsg = none →
      executeStructuredOperation allowed backend req =
        Except.error
          (OpError.invalidParameters
            "CRS transformation requires 'geometry', 'from_epsg', and 'to_epsg'.")) ∧
    (∀ (raw : RawObject) (c : StructuredOperationCandidate),
      parseCandidateFields raw = Except.ok c →
      modelValidateCandidate raw = validateRequirements c) := by
  refine ⟨?_, ?_, ?_, ?_, ?_, ?_, ?_, ?_, ?_, ?_, ?_⟩
  · intro c hop h
    rcases h with h | h <;>
      simp [validateRequirements, bufferRequirementCheck, areaRequirementCheck,
        intersectionRequirementCheck, nearestRequirementCheck,
        transformRequirementCheck, hop, h, Bind.bind, Except.bind, throw,
        throwThe, MonadExceptOf.throw, pure, Except.pure]
  · intro c hop h
    simp [validateRequirements, bufferRequirementCheck, areaRequirementCheck,
        intersectionRequirementCheck, nearestRequirementCheck,
        transformRequirementCheck, hop, h, Bind.bind, Except.bind, throw,
      throwThe, MonadExceptOf.throw, pure, Except.pure]
  · intro c hop h
    rcases h with h | h <;>
      simp [validateRequirements, bufferRequirementCheck, areaRequirementCheck,
        intersectionRequirementCheck, nearestRequirementCheck,
        transformRequirementCheck, hop, h, Bind.bind, Except.bind, throw,
        throwThe, MonadExceptOf.throw, pure, Except.pure]
  · intro c hop h
    simp [validateRequirements, bufferRequirementCheck, areaRequirementCheck,
        intersectionRequirementCheck, nearestRequirementCheck,
        transformRequirementCheck, hop, h, Bind.bind, Except.bind, throw,
      throwThe, MonadExceptOf.throw, pure, Except.pure]
  · intro c hop h
    rcases h with h | h | h <;>
      simp [validateRequirements, bufferRequirementCheck, areaRequirementCheck,
        intersectionRequirementCheck, nearestRequirementCheck,
        transformRequirementCheck, hop, h, Bind.bind, Except.bind, throw,
        throwThe, MonadExceptOf.throw, pure, Except.pure]
  · intro allowed backend req op hop hlow h
    rcases h with h | h
    · simp [executeStructuredOperation, hop, hlow, h]
    · cases hg : req.geometry <;>
        simp [executeStructuredOperation, hop, hlow, h, hg]
  · intro allowed backend req op hop hlow h
    simp [executeStructuredOperation, hop, hlow, h]
  · intro allowed backend req op hop hlow h
    rcases h with h | h
    · simp [executeStructuredOperation, hop, hlow, h]
    · cases hg : req.geometry <;>
        simp [executeStructuredOperation, hop, hlow, h, hg]
  · intro allowed backend req op hop hlow h
    simp [executeStructuredOperation, hop, hlow, h]
  · intro allowed backend req op hop hlow h
    rcases h with h | h | h
    · simp [executeStructuredOperation, hop, hlow, h]
    · cases hg : req.geometry <;> cases hte : req.to_epsg <;>
        simp [executeStructuredOperation, hop, hlow, h, hg, hte]
    · cases hg : req.geometry <;> cases hfe : req.from_epsg <;>
        simp [executeStructuredOperation, hop, hlow, h, hg, hfe]
  · intro raw c h
    simp [modelValidateCandidate, h, Except.bind]

/-- C1 witness: the theorem applied at concrete inputs — a bare buffer
candidate on the validator path, and a geometry-less nearest_neighbors
request on the direct dispatcher path. -/
theorem C1_required_fields_witness :
    validateRequirements { operation := "buffer" } =
      Except.error "Buffer requires 'geometry' and 'distance'." ∧
    executeStructuredOperation ["data.features"] stubBackend
        { prompt := "find parks", operation := some "nearest_neighbors" } =
      Except.error
        (OpError.invalidParameters "Nearest neighbors requires 'geometry'.") :=
  ⟨C1_required_fields_fail_on_every_path.1 { operation := "buffer" } rfl
      (Or.inl rfl),
   C1_required_fields_fail_on_every_path.2.2.2.2.2.2.2.2.1
      ["data.features"] stubBackend
      { prompt := "find parks", operation := some "nearest_neighbors" }
      "nearest_neighbors" rfl rfl rfl⟩

end GisOss

namespace GisOss

/-- C7: natural-language extraction scans the prompt left to right for
embedded JSON objects with an `operation` key (`operationCandidates`); zero
candidates fail with the "could not parse" error, two or more fail with the
distinct "multiple operations" error, and a sole candidate is passed to the
strict validator with its errors propagated — so parameters are a function
of the extracted JSON alone, never of the surrounding prose. -/
theorem C7_extraction_zero_one_many :
    ∀ (decode : RawDecoder) (prompt : String),
      (operationCandidates decode prompt = [] →
        parseNaturalQueryPrompt decode prompt = Except.error couldNotParseMsg) ∧
      (∀ c : RawObject, operationCandidates decode prompt = [c] →
        parseNaturalQueryPrompt decode prompt = modelValidateCandidate c) ∧
      (2 ≤ (operationCandidates decode prompt).length →
        parseNaturalQueryPrompt decode prompt =
          Except.error multipleOperationsMsg) ∧
      couldNotParseMsg ≠ multipleOperationsMsg := by
  intro decode prompt
  refine ⟨?_, ?_, ?_, by decide⟩
  · intro h; simp [parseNaturalQueryPrompt, h]
  · intro c h; simp [parseNaturalQueryPrompt, h]
  · intro h
    rcases hc : operationCandidates decode prompt with _ | ⟨a, _ | ⟨b, rest⟩⟩
    · simp [hc] at h
    · simp [hc] at h
    · simp [parseNaturalQueryPrompt, hc]

/-- C7 witness: the theorem applied at concrete inputs — a prose-only
prompt (no decodable JSON) yields the "could not parse" error, and a
one-object prompt hands that object to the strict validator. -/
theorem C7_extraction_witness :
    parseNaturalQueryPrompt noDecode "find nearby parks" =
      Except.error couldNotParseMsg ∧
    parseNaturalQueryPrompt constOpDecode (String.mk [lbrace]) =
      modelValidateCandidate [("operation", JsonVal.str "buffer")] :=
  ⟨(C7_extraction_zero_one_many noDecode "find nearby parks").1 rfl,
   (C7_extraction_zero_one_many constOpDecode (String.mk [lbrace])).2.1 _ rfl⟩

end GisOss

namespace GisOss

/-- Appending an entry under a different key does not change a dict
lookup. -/
theorem lookupField_append_ne (raw : RawObject) (kx k : String) (v : JsonVal)
    (h : k ≠ kx) : lookupField (raw ++ [(kx, v)]) k = lookupField raw k := by
  induction raw with
  | nil =>
    have hb : (kx == k) = false := beq_eq_false_iff_ne.mpr (fun e => h e.symm)
    simp [lookupField, List.find?, hb]
  | cons hd tl ih =>
    by_cases hh : hd.1 == k
    · simp [lookupField, List.find?, hh]
    · simp only [lookupField, List.cons_append, List.find?] at ih ⊢
      simp [hh] at ih ⊢
      exact ih

/-- Field parses depend on the raw object only through the key's lookup. -/
theorem getReqStrField_congr {r1 r2 : RawObject} {k : String}
    (h : lookupField r1 k = lookupField r2 k) :
    getReqStrField r1 k = getReqStrField r2 k := by
  unfold getReqStrField; rw [h]

/-- Field parses depend on the raw object only through the key's lookup. -/
theorem getBoolFieldD_congr {r1 r2 : RawObject} {k : String} {d : Bool}
    (h : lookupField r1 k = lookupField r2 k) :
    getBoolFieldD r1 k d = getBoolFieldD r2 k d := by
  unfold getBoolFieldD; rw [h]

/-- Field parses depend on the raw object only through the key's lookup. -/
theorem getOptStrField_congr {r1 r2 : RawObject} {k : String}
    (h : lookupField r1 k = lookupField r2 k) :
    getOptStrField r1 k = getOptStrField r2 k := by
  unfold getOptStrField; rw [h]

/-- Field parses depend on the raw object only through the key's lookup. -/
theorem getOptObjField_congr {r1 r2 : RawObject} {k : String}
    (h : lookupField r1 k = lookupField r2 k) :
    getOptObjField r1 k = getOptObjField r2 k := by
  unfold getOptObjField; rw [h]

/-- Field parses depend on the raw object only through the key's lookup. -/
theorem getOptIntField_congr {r1 r2 : RawObject} {k : String}
    (h : lookupField r1 k = lookupField r2 k) :
    getOptIntField r1 k = getOptIntField r2 k := by
  unfold getOptIntField; rw [h]

/-- Field parses depend on the raw object only through the key's lookup. -/
theorem getOptNumField_congr {r1 r2 : RawObject} {k : String}
    (h : lookupField r1 k = lookupField r2 k) :
    getOptNumField r1 k = getOptNumField r2 k := by
  unfold getOptNumField; rw [h]

/-- The `QueryRequest` model validates a body with an unrecognized key
appended exactly as it validates the body without it: pydantic's default
(no `model_config` on this model) silently ignores the extra key. -/
theorem queryRequest_ignores_unrecognized (raw : RawObject) (kx : String)
    (v : JsonVal) (hk : queryRequestRecognizedKeys.contains kx = false) :
    modelValidateQueryRequest (raw ++ [(kx, v)]) =
      modelValidateQueryRequest raw := by
  have hne : ∀ k : String, queryRequestRecognizedKeys.contains k = true →
      k ≠ kx := by
    intro k hkk e
    rw [e, hk] at hkk
    exact Bool.false_ne_true hkk
  have h : ∀ k : String, queryRequestRecognizedKeys.contains k = true →
      lookupField (raw ++ [(kx, v)]) k = lookupField raw k := by
    intro k hkk
    exact lookupField_append_ne raw kx k v (hne k hkk)
  unfold modelValidateQueryRequest
  rw [getReqStrField_congr (h "prompt" (by decide)),
      h "return_format" (by decide),
      getBoolFieldD_congr (h "include_confidence" (by decide)),
      getOptStrField_congr (h "operation" (by decide)),
      getOptObjField_congr (h "geometry" (by decide)),
      getOptObjField_congr (h "geometry_b" (by decide)),
      getOptStrField_congr (h "table" (by decide)),
      getOptIntField_congr (h "limit" (by decide)),
      getOptNumField_congr (h "distance" (by decide)),
      getOptStrField_congr (h "units" (by decide)),
      getOptIntField_congr (h "srid" (by decide)),
      getOptIntField_congr (h "from_epsg" (by decide)),
      getOptIntField_congr (h "to_epsg" (by decide))]

/-- C2 counterexample: the claim's "single strict validator on every path"
fails at a concrete input. A candidate carrying the unrecognized key
`sneaky_extra` is rejected by the strict validator, yet the same request
body on the manual structured-JSON path passes `QueryRequest` validation
with the extra key silently dropped, and the dispatcher then executes the
operation without any error. -/
theorem C2_counterexample_manual_path_looser :
    modelValidateCandidate
      [("operation", JsonVal.str "buffer"),
       ("geometry", JsonVal.obj [("type", JsonVal.str "Point")]),
       ("distance", JsonVal.num 100),
       ("sneaky_extra", JsonVal.num 1)] =
      Except.error "sneaky_extra: extra fields are not permitted" ∧
    modelValidateQueryRequest
      [("prompt", JsonVal.str "Buffer a point"),
       ("operation", JsonVal.str "buffer"),
       ("geometry", JsonVal.obj [("type", JsonVal.str "Point")]),
       ("distance", JsonVal.num 100),
       ("sneaky_extra", JsonVal.num 1)] =
      Except.ok
        { prompt := "Buffer a point"
          operation := some "buffer"
          geometry := some [("type", JsonVal.str "Point")]
          distance := some 100 } ∧
    executeStructuredOperation ["data.features"] stubBackend
      { prompt := "Buffer a point"
        operation := some "buffer"
        geometry := some [("type", JsonVal.str "Point")]
        distance := some 100 } =
      Except.ok [("geometry", JsonVal.obj [("type", JsonVal.str "Point")]),
                 ("units", JsonVal.str "meters")] :=
  ⟨rfl, rfl, rfl⟩

/-- C2 (amended): the strict validator is a closed schema — any candidate
containing a key outside the recognized set fails with an error naming an
offending key — and it is the validator applied on the prompt-extraction
path and (per the spec's §4.3(e) description of the absent
`validate_structured_operation_payload`) the LLM-output path; the
manual-JSON path, however, validates with the separate `QueryRequest`
model, which silently ignores unrecognized keys rather than rejecting
them. -/
theorem C2_closed_schema_strict_paths :
    (∀ (raw : RawObject) (k : String), findExtraKey raw = some k →
      modelValidateCandidate raw =
        Except.error (k ++ ": extra fields are not permitted")) ∧
    (∀ raw : RawObject, findExtraKey raw = none →
      ∀ k ∈ raw.map Prod.fst, recognizedFields.contains k = true) ∧
    (∀ raw : RawObject,
      (∃ k ∈ raw.map Prod.fst, recognizedFields.contains k = false) →
      ∃ k, findExtraKey raw = some k) ∧
    (∀ (decode : RawDecoder) (prompt : String) (c : RawObject),
      operationCandidates decode prompt = [c] →
      parseNaturalQueryPrompt decode prompt = modelValidateCandidate c) ∧
    (∀ raw : RawObject,
      validateStructuredOperationPayload raw = modelValidateCandidate raw) ∧
    (∀ (raw : RawObject) (kx : String) (v : JsonVal),
      queryRequestRecognizedKeys.contains kx = false →
      modelValidateQueryRequest (raw ++ [(kx, v)]) =
        modelValidateQueryRequest raw) := by
  refine ⟨?_, ?_, ?_, ?_, ?_, ?_⟩
  · intro raw k h
    simp [modelValidateCandidate, parseCandidateFields, h, Bind.bind,
      Except.bind, throw, throwThe, MonadExceptOf.throw, pure, Except.pure]
  · intro raw h k hk
    have := List.find?_eq_none.mp h k hk
    simpa using this
  · intro raw h
    rcases hf : findExtraKey raw with _ | k
    · obtain ⟨k, hk, hc⟩ := h
      have hmem := List.find?_eq_none.mp hf k hk
      simp at hmem
      exact absurd hmem (by simpa using hc)
    · exact ⟨k, rfl⟩
  · intro decode prompt c h
    simp [parseNaturalQueryPrompt, h]
  · intro raw
    rfl
  · intro raw kx v hk
    exact queryRequest_ignores_unrecognized raw kx v hk

/-- C2 witness: the amended theorem applied at concrete inputs — a
candidate with the unrecognized key `sneaky` is rejected by the strict
validator, while the `QueryRequest` model validates a body identically
with and without that key. -/
theorem C2_closed_schema_witness :
    modelValidateCandidate
      [("operation", JsonVal.str "buffer"), ("sneaky", JsonVal.num 1)] =
      Except.error "sneaky: extra fields are not permitted" ∧
    modelValidateQueryRequest
      [("prompt", JsonVal.str "x"), ("sneaky", JsonVal.num 1)] =
      modelValidateQueryRequest [("prompt", JsonVal.str "x")] :=
  ⟨C2_closed_schema_strict_paths.1
      [("operation", JsonVal.str "buffer"), ("sneaky", JsonVal.num 1)]
      "sneaky" rfl,
   C2_closed_schema_strict_paths.2.2.2.2.2
      [("prompt", JsonVal.str "x")] "sneaky" (JsonVal.num 1) rfl⟩

end GisOss

namespace GisOss

/-- A successful `_validate_requirements` run returns its candidate
unchanged, and in particular its nearest-neighbors block raised nothing. -/
theorem validateRequirements_ok {c d : StructuredOperationCandidate}
    (h : validateRequirements c = Except.ok d) :
    d = c ∧ nearestRequirementCheck c = Except.ok () := by
  unfold validateRequirements at h
  simp only [Bind.bind, Except.bind, pure, Except.pure] at h
  rcases h1 : bufferRequirementCheck c with e | u <;> rw [h1] at h
  · exact absurd h (by simp)
  rcases h2 : areaRequirementCheck c with e | u <;> rw [h2] at h
  · exact absurd h (by simp)
  rcases h3 : intersectionRequirementCheck c with e | u <;> rw [h3] at h
  · exact absurd h (by simp)
  rcases h4 : nearestRequirementCheck c with e | ⟨⟩ <;> rw [h4] at h
  · exact absurd h (by simp)
  rcases h5 : transformRequirementCheck c with e | u <;> rw [h5] at h
  · exact absurd h (by simp)
  cases h
  exact ⟨rfl, rfl⟩

/-- A nearest-neighbors candidate that passed its requirement block has a
geometry. -/
theorem nearest_ok_geometry {c : StructuredOperationCandidate}
    (hop : c.operation = "nearest_neighbors")
    (h : nearestRequirementCheck c = Except.ok ()) :
    c.geometry ≠ none := by
  intro hg
  unfold nearestRequirementCheck at h
  rw [hop] at h
  simp [hg] at h

/-- A candidate accepted by `model_validate` satisfies
`_validate_requirements`. -/
theorem modelValidateCandidate_ok {raw : RawObject}
    {c : StructuredOperationCandidate}
    (h : modelValidateCandidate raw = Except.ok c) :
    validateRequirements c = Except.ok c := by
  unfold modelValidateCandidate at h
  rcases hp : parseCandidateFields raw with e | d <;> rw [hp] at h
  · exact absurd h (by simp [Except.bind])
  · simp only [Except.bind] at h
    obtain ⟨hcd, _⟩ := validateRequirements_ok h
    rw [hcd]
    rw [hcd] at h
    exact h

/-- The request the `/query/natural` endpoint builds from a candidate
carries the candidate's operation, geometry, and table (with the
`data.features` default when the candidate has no table). -/
theorem buildStructuredRequest_fields {prompt rf : String} {ic : Bool}
    {c : StructuredOperationCandidate} {req : QueryRequest}
    (h : buildStructuredRequest prompt rf ic c = Except.ok req) :
    req.operation = some c.operation ∧ req.geometry = c.geometry ∧
      req.table = c.table.getD "data.features" := by
  unfold buildStructuredRequest at h
  simp only [Bind.bind, Except.bind, pure, Except.pure, throw, throwThe,
    MonadExceptOf.throw, Except.map] at h
  repeat' split at h
  all_goals simp_all
  all_goals (cases h; exact ⟨rfl, rfl, rfl⟩)

/-- C6: a validated nearest_neighbors operation (accepted by the strict
validator, then merged into a request by the natural-language endpoint)
whose trimmed table is not in the configured allow-list is rejected by the
dispatcher with the "table not permitted" error listing the allowed tables;
with the table in the allow-list, the dispatcher proceeds to the backend
call, whose outcome determines the response. -/
theorem C6_table_allowlist_independent_of_validator :
    ∀ (allowed : List String) (backend : SpatialBackend) (raw : RawObject)
      (c : StructuredOperationCandidate) (prompt rf : String) (ic : Bool)
      (req : QueryRequest),
      modelValidateCandidate raw = Except.ok c →
      c.operation = "nearest_neighbors" →
      buildStructuredRequest prompt rf ic c = Except.ok req →
      ∃ g : RawObject, req.geometry = some g ∧
        (pyStrip req.table ∉ allowed →
          executeStructuredOperation allowed backend req =
            Except.error (OpError.invalidParameters
              (tableNotPermittedMsg (pyStrip req.table) allowed))) ∧
        (pyStrip req.table ∈ allowed →
          (∀ features : List JsonVal,
            backend.nearestNeighbors g (pyStrip req.table) req.limit req.srid =
              Except.ok features →
            executeStructuredOperation allowed backend req =
              Except.ok [("features", JsonVal.arr features),
                         ("limit", JsonVal.num (req.limit : ℚ))]) ∧
          (backend.nearestNeighbors g (pyStrip req.table) req.limit req.srid =
              Except.error () →
            executeStructuredOperation allowed backend req =
              Except.error OpError.dbError)) := by
  intro allowed backend raw c prompt rf ic req hval hop hreq
  obtain ⟨hreqop, hreqgeom, hreqtable⟩ := buildStructuredRequest_fields hreq
  have hvr := modelValidateCandidate_ok hval
  have hgeom := nearest_ok_geometry hop (validateRequirements_ok hvr).2
  obtain ⟨g, hg⟩ := Option.ne_none_iff_exists'.mp hgeom
  rw [hop] at hreqop
  rw [hg] at hreqgeom
  have hl : pyLower "nearest_neighbors" = "nearest_neighbors" := rfl
  refine ⟨g, hreqgeom, ?_, ?_⟩
  · intro hc
    simp [executeStructuredOperation, hreqop, hreqgeom, hl, hc]
  · intro hc
    constructor
    · intro features hf
      simp [executeStructuredOperation, hreqop, hreqgeom, hl, hc, hf]
    · intro hf
      simp [executeStructuredOperation, hreqop, hreqgeom, hl, hc, hf]

/-- C6 witness: the theorem applied at concrete inputs — a fully validated
nearest_neighbors request against `audit.query_log` is rejected with the
message listing the allow-list `data.features`, while the same request
against the default table reaches the backend and returns its features. -/
theorem C6_table_allowlist_witness :
    executeStructuredOperation ["data.features"] stubBackend
      { prompt := "p", operation := some "nearest_neighbors",
        geometry := some [("type", JsonVal.str "Point")],
        table := "audit.query_log" } =
      Except.error (OpError.invalidParameters
        (tableNotPermittedMsg "audit.query_log" ["data.features"])) ∧
    executeStructuredOperation ["data.features"] stubBackend
      { prompt := "p", operation := some "nearest_neighbors",
        geometry := some [("type", JsonVal.str "Point")] } =
      Except.ok [("features", JsonVal.arr []), ("limit", JsonVal.num 5)] := by
  constructor
  · obtain ⟨g, hg, hblocked, hallowed⟩ :=
      C6_table_allowlist_independent_of_validator ["data.features"] stubBackend
        [("operation", JsonVal.str "nearest_neighbors"),
         ("geometry", JsonVal.obj [("type", JsonVal.str "Point")]),
         ("table", JsonVal.str "audit.query_log")]
        { operation := "nearest_neighbors",
          geometry := some [("type", JsonVal.str "Point")],
          table := some "audit.query_log" }
        "p" "geojson" false
        { prompt := "p", operation := some "nearest_neighbors",
          geometry := some [("type", JsonVal.str "Point")],
          table := "audit.query_log" }
        rfl rfl rfl
    exact hblocked (by decide)
  · obtain ⟨g, hg, hblocked, hallowed⟩ :=
      C6_table_allowlist_independent_of_validator ["data.features"] stubBackend
        [("operation", JsonVal.str "nearest_neighbors"),
         ("geometry", JsonVal.obj [("type", JsonVal.str "Point")])]
        { operation := "nearest_neighbors",
          geometry := some [("type", JsonVal.str "Point")] }
        "p" "geojson" false
        { prompt := "p", operation := some "nearest_neighbors",
          geometry := some [("type", JsonVal.str "Point")] }
        rfl rfl rfl
    exact (hallowed (by decide)).1 [] rfl

end GisOss

namespace GisOss

/-- C4: for every executed operation (the dispatcher returned a result),
the grounding builder's overall status is the conjunction of its evidence
entries — `verified` exactly when every entry is verified; an executed
operation deriving solely from caller geometry (buffer) is `verified`; an
executed nearest_neighbors, returning backend-queried records, is
`unverified` with every evidence entry marked unverified. -/
theorem C4_grounding_verification_status :
    ∀ (allowed : List String) (backend : SpatialBackend) (req : QueryRequest)
      (res : RawObject),
      executeStructuredOperation allowed backend req = Except.ok res →
      ((buildGroundingEvidence req).1 = "verified" ↔
        ∀ e ∈ (buildGroundingEvidence req).2, e.verification = "verified") ∧
      (∀ opRaw : String, req.operation = some opRaw → pyLower opRaw = "buffer" →
        (buildGroundingEvidence req).1 = "verified") ∧
      (∀ opRaw : String, req.operation = some opRaw →
        pyLower opRaw = "nearest_neighbors" →
        (buildGroundingEvidence req).1 = "unverified" ∧
        ∀ e ∈ (buildGroundingEvidence req).2, e.verification = "unverified") := by
  intro allowed backend req res h
  unfold executeStructuredOperation at h
  rcases hop : req.operation with _ | opRaw
  · rw [hop] at h
    exact absurd h (by simp)
  rw [hop] at h
  dsimp only at h
  by_cases hb : pyLower opRaw = "buffer"
  · rw [if_pos hb] at h
    rcases hg : req.geometry with _ | g <;> rw [hg] at h
    · rcases hd : req.distance with _ | d <;> rw [hd] at h <;> simp at h
    · rcases hd : req.distance with _ | d <;> rw [hd] at h
      · simp at h
      · refine ⟨?_, ?_, ?_⟩
        · simp [buildGroundingEvidence, hop, hb, hg]
        · intro o ho hl
          simp [buildGroundingEvidence, hop, hb, hg]
        · intro o ho hl
          cases ho
          rw [hl] at hb
          exact absurd hb (by decide)
  rw [if_neg hb] at h
  by_cases hca : pyLower opRaw = "calculate_area"
  · rw [if_pos hca] at h
    rcases hg : req.geometry with _ | g <;> rw [hg] at h
    · simp at h
    · refine ⟨?_, ?_, ?_⟩
      · simp [buildGroundingEvidence, hop, hca, hg]
      · intro o ho hl
        cases ho
        rw [hl] at hca
        exact absurd hca (by decide)
      · intro o ho hl
        cases ho
        rw [hl] at hca
        exact absurd hca (by decide)
  rw [if_neg hca] at h
  by_cases hfi : pyLower opRaw = "find_intersections"
  · rw [if_pos hfi] at h
    rcases hg : req.geometry with _ | g <;> rw [hg] at h
    · rcases hgb : req.geometry_b with _ | gb <;> rw [hgb] at h <;> simp at h
    · rcases hgb : req.geometry_b with _ | gb <;> rw [hgb] at h
      · simp at h
      · refine ⟨?_, ?_, ?_⟩
        · simp [buildGroundingEvidence, hop, hfi, hg, hgb]
        · intro o ho hl
          cases ho
          rw [hl] at hfi
          exact absurd hfi (by decide)
        · intro o ho hl
          cases ho
          rw [hl] at hfi
          exact absurd hfi (by decide)
  rw [if_neg hfi] at h
  by_cases hn : pyLower opRaw = "nearest_neighbors"
  · refine ⟨?_, ?_, ?_⟩
    · simp [buildGroundingEvidence, hop, hn]
    · intro o ho hl
      cases ho
      rw [hl] at hn
      exact absurd hn (by decide)
    · intro o ho hl
      simp [buildGroundingEvidence, hop, hn]
  rw [if_neg hn] at h
  by_cases ht : pyLower opRaw = "transform_crs"
  · rw [if_pos ht] at h
    rcases hg : req.geometry with _ | g <;> rw [hg] at h
    · rcases hfe : req.from_epsg with _ | fe <;> rw [hfe] at h <;>
        rcases hte : req.to_epsg with _ | te <;> rw [hte] at h <;> simp at h
    · rcases hfe : req.from_epsg with _ | fe <;> rw [hfe] at h <;>
        rcases hte : req.to_epsg with _ | te <;> rw [hte] at h
      · simp at h
      · simp at h
      · simp at h
      · refine ⟨?_, ?_, ?_⟩
        · simp [buildGroundingEvidence, hop, ht, hg]
        · intro o ho hl
          cases ho
          rw [hl] at ht
          exact absurd ht (by decide)
        · intro o ho hl
          cases ho
          rw [hl] at ht
          exact absurd ht (by decide)
  rw [if_neg ht] at h
  exact absurd h (by simp)

/-- C4 witness: the theorem applied at concrete executed requests — a
buffer of a point is verified; a nearest-neighbors query against the
default table is unverified. -/
theorem C4_grounding_witness :
    (buildGroundingEvidence
      { prompt := "p", operation := some "buffer",
        geometry := some [("type", JsonVal.str "Point")],
        distance := some 100 }).1 = "verified" ∧
    (buildGroundingEvidence
      { prompt := "p", operation := some "nearest_neighbors",
        geometry := some [("type", JsonVal.str "Point")] }).1 = "unverified" := by
  constructor
  · exact (C4_grounding_verification_status ["data.features"] stubBackend
      { prompt := "p", operation := some "buffer",
        geometry := some [("type", JsonVal.str "Point")],
        distance := some 100 } _ rfl).2.1 "buffer" rfl rfl
  · exact ((C4_grounding_verification_status ["data.features"] stubBackend
      { prompt := "p", operation := some "nearest_neighbors",
        geometry := some [("type", JsonVal.str "Point")] } _ rfl).2.2
      "nearest_neighbors" rfl rfl).1

end GisOss

namespace GisOss

/-- With every attempt failing at the transport layer, the retry loop
starting with `r + 1` attempts remaining makes exactly `r + 1` further
attempts, sleeps `r` times with the delay doubling from its current value,
and ends in the unavailable error. -/
theorem ollamaLoop_all_transport (jsonLoads : JsonLoads) :
    ∀ (r idx : Nat) (delay : ℚ),
      ollamaAttemptLoop jsonLoads (fun _ => AttemptOutcome.transportError)
          idx (r + 1) delay =
        (Except.error (LLMPlannerError.unavailable "LLM provider unavailable."),
         idx + r + 1,
         (List.range r).map (fun i => delay * 2 ^ i)) := by
  intro r
  induction r with
  | zero =>
    intro idx delay
    simp [ollamaAttemptLoop]
  | succ r ih =>
    intro idx delay
    rw [ollamaAttemptLoop]
    simp only [Nat.succ_ne_zero, if_false]
    rw [ih (idx + 1) (delay * 2)]
    dsimp only
    simp only [Prod.mk.injEq]
    refine ⟨trivial, by omega, ?_⟩
    rw [List.range_succ_eq_map, List.map_cons, List.map_map]
    simp only [List.cons.injEq]
    refine ⟨by ring, ?_⟩
    refine List.map_congr_left ?_
    intro i _
    simp only [Function.comp, pow_succ]
    ring

/-- C8: a provider call failing with a transport error on every attempt
makes exactly `max_retries + 1` total attempts, sleeps between consecutive
attempts per the exponential schedule 200ms, 400ms, … (the i-th sleep is
`200·2^i` ms, so there are `max_retries` sleeps, none after the final
attempt), and raises the provider-unavailable error only after the final
failed attempt. The constructor clamps a negative configured value to 0
(`max(max_retries, 0)`), so the attempt count is stated over the clamped
count. -/
theorem C8_transport_failure_retries_backoff :
    ∀ (mr : Nat) (jsonLoads : JsonLoads),
      generateStructuredOperation (mr : Int) jsonLoads
          (fun _ => AttemptOutcome.transportError) =
        (Except.error (LLMPlannerError.unavailable "LLM provider unavailable."),
         mr + 1,
         (List.range mr).map (fun i => (200 * 2 ^ i : ℚ) / 1000)) := by
  intro mr jsonLoads
  unfold generateStructuredOperation
  have hmax : (max (mr : Int) 0).toNat = mr := by omega
  rw [hmax, ollamaLoop_all_transport]
  simp only [Prod.mk.injEq]
  refine ⟨trivial, by omega, ?_⟩
  refine List.map_congr_left ?_
  intro i _
  ring

end GisOss

namespace GisOss

/-- Looking up an identifier after its entry was filtered out and
re-appended finds the appended bucket (`move_to_end` semantics). -/
theorem lookupBucket_filter_append (bs : BucketMap) (id : String)
    (nb : RateBucket) :
    lookupBucket (bs.filter (fun kb => !(kb.1 == id)) ++ [(id, nb)]) id =
      some nb := by
  induction bs with
  | nil => simp [lookupBucket, List.find?]
  | cons hd tl ih =>
    by_cases h : hd.1 == id
    · simp only [List.filter_cons, h, Bool.not_true, List.cons_append]
      exact ih
    · simp only [List.filter_cons, h, Bool.not_false, List.cons_append]
      simp only [lookupBucket, List.find?, h] at ih ⊢
      exact ih

/-- Filtering out a present identifier shrinks the table by at least one
entry. -/
theorem filter_out_length_lt {bs : BucketMap} {id : String} {b : RateBucket}
    (h : lookupBucket bs id = some b) :
    (bs.filter (fun kb => !(kb.1 == id))).length + 1 ≤ bs.length := by
  induction bs with
  | nil => simp [lookupBucket] at h
  | cons hd tl ih =>
    by_cases hh : hd.1 == id
    · simp only [List.filter_cons, hh, Bool.not_true, if_false]
      have := List.length_filter_le (fun kb => !(kb.1 == id)) tl
      simpa using Nat.add_le_add_right this 1
    · simp only [lookupBucket, List.find?, hh] at h
      simp only [List.filter_cons, hh, Bool.not_false, if_true]
      have := ih (by simpa [lookupBucket] using h)
      simpa using Nat.add_le_add_right this 0

/-- Every bucket surviving the lazy sweep has been idle less than the
TTL. -/
theorem evictStale_mem {rl : RateLimiter} {now : ℚ} {buckets : BucketMap}
    {kb : String × RateBucket} (h : kb ∈ evictStale rl now buckets) :
    now - kb.2.updated < rl.bucketTtlSeconds := by
  have := List.of_mem_filter h
  simp at this
  linarith

/-- Refilling never makes a fresh bucket stale. -/
theorem refill_keeps_fresh {rl : RateLimiter} {b : RateBucket} {now : ℚ}
    (httl : 0 < rl.bucketTtlSeconds)
    (h : now - b.updated < rl.bucketTtlSeconds) :
    now - (refillBucket rl b now).updated < rl.bucketTtlSeconds := by
  by_cases he : now - b.updated ≤ 0
  · simpa [refillBucket, he] using h
  · simpa [refillBucket, he] using httl

/-- A found bucket is an entry of the table. -/
theorem lookupBucket_mem {bs : BucketMap} {id : String} {b : RateBucket}
    (h : lookupBucket bs id = some b) : ∃ k, (k, b) ∈ bs := by
  unfold lookupBucket at h
  rcases hf : bs.find? (fun kb => kb.1 == id) with _ | kb
  · rw [hf] at h; simp at h
  · rw [hf] at h
    simp at h
    have hmem := List.mem_of_find?_eq_some hf
    refine ⟨kb.1, ?_⟩
    rw [← h]
    exact hmem

/-- An entry of the in-place-updated table is the new bucket or an
original entry. -/
theorem setBucketInPlace_mem {bs : BucketMap} {id : String} {nb : RateBucket}
    {kb : String × RateBucket} (h : kb ∈ setBucketInPlace bs id nb) :
    kb.2 = nb ∨ kb ∈ bs := by
  unfold setBucketInPlace at h
  obtain ⟨x, hx, hfx⟩ := List.mem_map.mp h
  by_cases hh : x.1 == id
  · left; rw [if_pos hh] at hfx; rw [← hfx]
  · right; rw [if_neg hh] at hfx; rw [← hfx]; exact hx

/-- Concrete fact: with `capacity 1, window 60`, the post-evict lookup of an
exhausted bucket at the same timestamp finds it unchanged. -/
theorem c9_lookup_fact :
    lookupBucket
      (evictStale
        { capacity := 1, refillRate := 1 / 60, maxIdentifiers := 10000,
          bucketTtlSeconds := 3600 } 0
        [("u", { tokens := 0, updated := 0 })]) "u" =
      some { tokens := 0, updated := 0 } := by
  norm_num [evictStale, lookupBucket]

/-- Concrete fact: refilling the exhausted bucket with no elapsed time
leaves it below one token. -/
theorem c9_refill_fact :
    (refillBucket
      { capacity := 1, refillRate := 1 / 60, maxIdentifiers := 10000,
        bucketTtlSeconds := 3600 } { tokens := 0, updated := 0 } 0).tokens <
      1 := by
  norm_num [refillBucket]

/-- C9: every check first refills the identifier's bucket by
`elapsed × refill_rate` capped at capacity (with `burst` left unset the
constructor makes the refill rate `capacity / window`), then raises when
fewer than one token is available — retaining the in-place refill — and
otherwise consumes exactly one token; in particular with capacity 1 and
window 60s, two checks for one identifier with no elapsed time have the
first succeed and the second raise. -/
theorem C9_token_bucket_refill_then_consume :
    (∀ (mreq win mi ttl : Int) (rl : RateLimiter),
      mkRateLimiter mreq win none mi ttl = Except.ok rl →
      rl.capacity = (mreq : ℚ) ∧ rl.refillRate = rl.capacity / (win : ℚ)) ∧
    (∀ (rl : RateLimiter) (b : RateBucket) (now : ℚ),
      (refillBucket rl b now).tokens =
        if now - b.updated ≤ 0 then b.tokens
        else min rl.capacity (b.tokens + (now - b.updated) * rl.refillRate)) ∧
    (∀ (rl : RateLimiter) (buckets : BucketMap) (id : String) (now : ℚ)
      (b : RateBucket),
      lookupBucket (evictStale rl now buckets) id = some b →
      ((refillBucket rl b now).tokens < 1 →
        RateLimiter.check rl buckets id now =
          (false, setBucketInPlace (evictStale rl now buckets) id
            (refillBucket rl b now))) ∧
      (¬ (refillBucket rl b now).tokens < 1 →
        (RateLimiter.check rl buckets id now).1 = true ∧
        lookupBucket (RateLimiter.check rl buckets id now).2 id =
          some { tokens := (refillBucket rl b now).tokens - 1,
                 updated := (refillBucket rl b now).updated })) ∧
    (mkRateLimiter 1 60 none 10000 3600 = Except.ok
      { capacity := 1, refillRate := 1 / 60, maxIdentifiers := 10000,
        bucketTtlSeconds := 3600 } ∧
     RateLimiter.check
        { capacity := 1, refillRate := 1 / 60, maxIdentifiers := 10000,
          bucketTtlSeconds := 3600 } [] "u" 0 =
        (true, [("u", { tokens := 0, updated := 0 })]) ∧
     RateLimiter.check
        { capacity := 1, refillRate := 1 / 60, maxIdentifiers := 10000,
          bucketTtlSeconds := 3600 } [("u", { tokens := 0, updated := 0 })]
        "u" 0 =
        (false, [("u", { tokens := 0, updated := 0 })])) := by
  refine ⟨?_, ?_, ?_, ?_, ?_, ?_⟩
  · intro mreq win mi ttl rl h
    unfold mkRateLimiter at h
    split at h
    · exact absurd h (by simp)
    split at h
    · exact absurd h (by simp)
    cases h
    exact ⟨rfl, rfl⟩
  · intro rl b now
    by_cases he : now - b.updated ≤ 0 <;> simp [refillBucket, he]
  · intro rl buckets id now b hlook
    constructor
    · intro hlt
      simp only [RateLimiter.check]
      rw [hlook]
      simp only [hlt, if_true]
    · intro hge
      simp only [RateLimiter.check]
      rw [hlook]
      simp only [hge, if_false]
      exact ⟨by trivial, lookupBucket_filter_append _ _ _⟩
  · norm_num [mkRateLimiter]
    rfl
  · norm_num [RateLimiter.check, evictStale, lookupBucket, refillBucket]
  · norm_num [RateLimiter.check, evictStale, lookupBucket, refillBucket,
      setBucketInPlace]

/-- C9 witness: the theorem applied at concrete inputs — the
capacity-1/window-60 limiter with an exhausted bucket and no elapsed time
raises (the third conjunct instantiated, its hypotheses discharged by the
concrete lookup and refill facts), and the first check from an empty table
succeeds (the concrete conjunct). -/
theorem C9_token_bucket_witness :
    RateLimiter.check
      { capacity := 1, refillRate := 1 / 60, maxIdentifiers := 10000,
        bucketTtlSeconds := 3600 } [("u", { tokens := 0, updated := 0 })]
      "u" 0 =
      (false,
        setBucketInPlace
          (evictStale
            { capacity := 1, refillRate := 1 / 60, maxIdentifiers := 10000,
              bucketTtlSeconds := 3600 } 0
            [("u", { tokens := 0, updated := 0 })]) "u"
          (refillBucket
            { capacity := 1, refillRate := 1 / 60, maxIdentifiers := 10000,
              bucketTtlSeconds := 3600 } { tokens := 0, updated := 0 } 0)) ∧
    (RateLimiter.check
      { capacity := 1, refillRate := 1 / 60, maxIdentifiers := 10000,
        bucketTtlSeconds := 3600 } [] "u" 0).1 = true :=
  ⟨(C9_token_bucket_refill_then_consume.2.2.1
      { capacity := 1, refillRate := 1 / 60, maxIdentifiers := 10000,
        bucketTtlSeconds := 3600 }
      [("u", { tokens := 0, updated := 0 })] "u" 0
      { tokens := 0, updated := 0 } c9_lookup_fact).1 c9_refill_fact,
   by rw [C9_token_bucket_refill_then_consume.2.2.2.2.1]⟩

end GisOss

namespace GisOss

/-- Concrete fact: a one-second-old bucket survives the lazy sweep of a
3600-second-TTL limiter. -/
theorem c10_evict_fact :
    evictStale
      { capacity := 10, refillRate := 1 / 6, maxIdentifiers := 1,
        bucketTtlSeconds := 3600 } 1
      [("a", { tokens := 9, updated := 0 })] =
      [("a", { tokens := 9, updated := 0 })] := by
  norm_num [evictStale]

/-- Concrete fact: the surviving table has no bucket for the new
identifier. -/
theorem c10_lookup_fact :
    lookupBucket
      (evictStale
        { capacity := 10, refillRate := 1 / 6, maxIdentifiers := 1,
          bucketTtlSeconds := 3600 } 1
        [("a", { tokens := 9, updated := 0 })]) "b" = none := by
  rw [c10_evict_fact]
  rfl

/-- C10: after every check the limiter tracks at most `max_identifiers`
buckets (given it did before, as every reachable state does) and no bucket
idle for at least the TTL remains; a check for a new identifier when the
post-sweep table is at the cap evicts the least-recently-used (head) bucket
to make room; and in particular with `max_identifiers = 2`, checking a, b, c
at successive timestamps leaves exactly b and c tracked. -/
theorem C10_eviction_bounds_and_lru :
    (∀ (rl : RateLimiter) (buckets : BucketMap) (id : String) (now : ℚ),
      1 ≤ rl.maxIdentifiers → buckets.length ≤ rl.maxIdentifiers →
      (RateLimiter.check rl buckets id now).2.length ≤ rl.maxIdentifiers) ∧
    (∀ (rl : RateLimiter) (buckets : BucketMap) (id : String) (now : ℚ),
      0 < rl.bucketTtlSeconds →
      ∀ kb ∈ (RateLimiter.check rl buckets id now).2,
        now - kb.2.updated < rl.bucketTtlSeconds) ∧
    (∀ (rl : RateLimiter) (buckets : BucketMap) (id : String) (now : ℚ),
      lookupBucket (evictStale rl now buckets) id = none →
      rl.maxIdentifiers ≤ (evictStale rl now buckets).length →
      1 ≤ rl.capacity →
      RateLimiter.check rl buckets id now =
        (true, (evictStale rl now buckets).drop 1 ++
          [(id, { tokens := rl.capacity - 1, updated := now })])) ∧
    (mkRateLimiter 10 60 none 2 3600 = Except.ok
      { capacity := 10, refillRate := 10 / 60, maxIdentifiers := 2,
        bucketTtlSeconds := 3600 } ∧
     ((RateLimiter.check
        { capacity := 10, refillRate := 10 / 60, maxIdentifiers := 2,
          bucketTtlSeconds := 3600 }
        ((RateLimiter.check
            { capacity := 10, refillRate := 10 / 60, maxIdentifiers := 2,
              bucketTtlSeconds := 3600 }
            ((RateLimiter.check
                { capacity := 10, refillRate := 10 / 60, maxIdentifiers := 2,
                  bucketTtlSeconds := 3600 } [] "a" 1000).2) "b" 1001).2)
        "c" 1002).2).map Prod.fst = ["b", "c"]) := by
  refine ⟨?_, ?_, ?_, ?_, ?_⟩
  · intro rl buckets id now hmax hlen
    have hbs : (evictStale rl now buckets).length ≤ rl.maxIdentifiers :=
      le_trans (List.length_filter_le _ _) hlen
    simp only [RateLimiter.check]
    rcases hlook : lookupBucket (evictStale rl now buckets) id with _ | b
    · by_cases hm : rl.maxIdentifiers ≤ (evictStale rl now buckets).length <;>
        by_cases hcap :
          (refillBucket rl { tokens := rl.capacity, updated := now } now).tokens
            < 1 <;>
        simp only [hm, hcap, if_true, if_false, List.length_append,
          List.length_drop, List.length_cons, List.length_nil] <;>
        omega
    · by_cases hlt : (refillBucket rl b now).tokens < 1
      · simp only [hlt, if_true]
        simpa [setBucketInPlace] using hbs
      · simp only [hlt, if_false]
        have := filter_out_length_lt hlook
        simp only [List.length_append, List.length_cons, List.length_nil]
        omega
  · intro rl buckets id now httl kb hkb
    simp only [RateLimiter.check] at hkb
    rcases hlook : lookupBucket (evictStale rl now buckets) id with _ | b <;>
      rw [hlook] at hkb
    · by_cases hcap :
          (refillBucket rl { tokens := rl.capacity, updated := now } now).tokens
            < 1 <;>
        by_cases hm : rl.maxIdentifiers ≤ (evictStale rl now buckets).length <;>
        simp only [hcap, hm, if_true, if_false, List.mem_append,
          List.mem_singleton] at hkb
      · exact evictStale_mem (List.drop_subset 1 _ hkb)
      · exact evictStale_mem hkb
      · rcases hkb with hkb | hkb
        · exact evictStale_mem (List.drop_subset 1 _ hkb)
        · rw [hkb]
          simpa [refillBucket] using httl
      · rcases hkb with hkb | hkb
        · exact evictStale_mem hkb
        · rw [hkb]
          simpa [refillBucket] using httl
    · have hbmem : now - b.updated < rl.bucketTtlSeconds := by
        obtain ⟨k, hk⟩ := lookupBucket_mem hlook
        exact evictStale_mem hk
      by_cases hlt : (refillBucket rl b now).tokens < 1 <;>
        simp only [hlt, if_true, if_false, List.mem_append,
          List.mem_singleton] at hkb
      · rcases setBucketInPlace_mem hkb with h2 | h2
        · rw [h2]
          exact refill_keeps_fresh httl hbmem
        · exact evictStale_mem h2
      · rcases hkb with hkb | hkb
        · exact evictStale_mem (List.mem_of_mem_filter hkb)
        · rw [hkb]
          exact refill_keeps_fresh httl hbmem
  · intro rl buckets id now hlook hm hcap
    simp only [RateLimiter.check]
    rw [hlook]
    have hrefill :
        refillBucket rl { tokens := rl.capacity, updated := now } now =
          { tokens := rl.capacity, updated := now } := by
      simp [refillBucket]
    rw [hrefill]
    simp only [hm, if_true]
    have hnl : ¬ rl.capacity < 1 := not_lt.mpr hcap
    simp only [hnl, if_false]
  · norm_num [mkRateLimiter]
    rfl
  · have h1 : (RateLimiter.check
        { capacity := 10, refillRate := 10 / 60, maxIdentifiers := 2,
          bucketTtlSeconds := 3600 } [] "a" 1000) =
        (true, [("a", { tokens := 9, updated := 1000 })]) := by
      norm_num [RateLimiter.check, evictStale, lookupBucket, refillBucket]
    have h2 : (RateLimiter.check
        { capacity := 10, refillRate := 10 / 60, maxIdentifiers := 2,
          bucketTtlSeconds := 3600 } [("a", { tokens := 9, updated := 1000 })]
        "b" 1001) =
        (true, [("a", { tokens := 9, updated := 1000 }),
                ("b", { tokens := 9, updated := 1001 })]) := by
      have he : evictStale
          { capacity := 10, refillRate := 10 / 60, maxIdentifiers := 2,
            bucketTtlSeconds := 3600 } 1001
          [("a", { tokens := 9, updated := 1000 })] =
          [("a", { tokens := 9, updated := 1000 })] := by
        norm_num [evictStale]
      have hl : lookupBucket
          [("a", ({ tokens := 9, updated := 1000 } : RateBucket))] "b" =
          none := rfl
      simp only [RateLimiter.check, he, hl]
      norm_num [refillBucket]
    have h3 : (RateLimiter.check
        { capacity := 10, refillRate := 10 / 60, maxIdentifiers := 2,
          bucketTtlSeconds := 3600 }
        [("a", { tokens := 9, updated := 1000 }),
         ("b", { tokens := 9, updated := 1001 })] "c" 1002) =
        (true, [("b", { tokens := 9, updated := 1001 }),
                ("c", { tokens := 9, updated := 1002 })]) := by
      have he : evictStale
          { capacity := 10, refillRate := 10 / 60, maxIdentifiers := 2,
            bucketTtlSeconds := 3600 } 1002
          [("a", { tokens := 9, updated := 1000 }),
           ("b", { tokens := 9, updated := 1001 })] =
          [("a", { tokens := 9, updated := 1000 }),
           ("b", { tokens := 9, updated := 1001 })] := by
        norm_num [evictStale]
      have hl : lookupBucket
          [("a", ({ tokens := 9, updated := 1000 } : RateBucket)),
           ("b", ({ tokens := 9, updated := 1001 } : RateBucket))] "c" =
          none := rfl
      simp only [RateLimiter.check, he, hl]
      norm_num [refillBucket]
    rw [h1]
    dsimp only
    rw [h2]
    dsimp only
    rw [h3]
    rfl

/-- C10 witness: the theorem applied at concrete inputs — a check for a new
identifier against a full (capacity-1) table evicts the head bucket (the
third conjunct, hypotheses discharged concretely), and a check from an
empty table respects the identifier cap (the first conjunct). -/
theorem C10_eviction_witness :
    RateLimiter.check
      { capacity := 10, refillRate := 1 / 6, maxIdentifiers := 1,
        bucketTtlSeconds := 3600 } [("a", { tokens := 9, updated := 0 })]
      "b" 1 =
      (true,
        (evictStale
          { capacity := 10, refillRate := 1 / 6, maxIdentifiers := 1,
            bucketTtlSeconds := 3600 } 1
          [("a", { tokens := 9, updated := 0 })]).drop 1 ++
        [("b", { tokens := (10 : ℚ) - 1, updated := 1 })]) ∧
    (RateLimiter.check
      { capacity := 10, refillRate := 10 / 60, maxIdentifiers := 2,
        bucketTtlSeconds := 3600 } [] "x" 0).2.length ≤ 2 :=
  ⟨C10_eviction_bounds_and_lru.2.2.1
      { capacity := 10, refillRate := 1 / 6, maxIdentifiers := 1,
        bucketTtlSeconds := 3600 }
      [("a", { tokens := 9, updated := 0 })] "b" 1 c10_lookup_fact
      (by rw [c10_evict_fact]; decide) (by decide),
   C10_eviction_bounds_and_lru.1
      { capacity := 10, refillRate := 10 / 60, maxIdentifiers := 2,
        bucketTtlSeconds := 3600 } [] "x" 0 (by decide) (by decide)⟩

end GisOss
